import Mathlib

/-!
Verification of the design-dev-toolbox repository.

The repository bundles two independent pipelines:
* a PDF export script for Figma Make presentations (export-to-pdf.ts): it
  loads a JSON configuration, probes the dev server, drives a headless
  browser through slides and sub-slides with synthetic key events, takes
  one screenshot per reached state, and merges the one-page-per-screenshot
  documents into a single PDF;
* an image-fix script (decode-base64-images.js): it scans asset
  directories for PNG files whose textual content is base64 encoded and
  rewrites them as binary PNG files.

The definitions in this file are a shallow embedding of those scripts.
Effectful browser and filesystem actions are represented as explicit
event traces or as pure functions over the inputs the scripts read.
-/

namespace DesignDevToolbox

/-! ## Image-fix pipeline (decode-base64-images.js)

File contents are modelled as byte lists. The script reads files as utf8
strings; all bytes it actually inspects (the base64 magic prefix and the
whitespace set) are ASCII, so the byte-level model is faithful.
-/

/-- Whitespace bytes matched by the JS regex class backslash-s (ASCII part):
space, tab, line feed, vertical tab, form feed, carriage return. -/
def isSpaceByte (b : Nat) : Bool :=
  b == 32 || b == 9 || b == 10 || b == 11 || b == 12 || b == 13

/-- JS String.trim: drop leading and trailing whitespace. -/
def trimBytes (content : List Nat) : List Nat :=
  ((content.dropWhile isSpaceByte).reverse.dropWhile isSpaceByte).reverse

/-- ASCII bytes of the string iVBORw0KGgo, the base64 encoding of the PNG
magic bytes, used by isBase64Encoded as the detection marker. -/
def b64MagicHead : List Nat :=
  [105, 86, 66, 79, 82, 119, 48, 75, 71, 103, 111]

/-- isBase64Encoded from decode-base64-images.js: the trimmed content
starts with the iVBORw0KGgo marker. -/
def isBase64Encoded (content : List Nat) : Bool :=
  (trimBytes content).take 11 == b64MagicHead

/-- Value of one base64 alphabet byte, none for a byte outside the
alphabet. Node Buffer.from with base64 ignores bytes outside the
alphabet, modelled by filterMap over this function. -/
def b64Val (b : Nat) : Option Nat :=
  if 65 ≤ b ∧ b ≤ 90 then some (b - 65)
  else if 97 ≤ b ∧ b ≤ 122 then some (b - 71)
  else if 48 ≤ b ∧ b ≤ 57 then some (b + 4)
  else if b = 43 then some 62
  else if b = 47 then some 63
  else none

/-- The six bits of a base64 value, most significant first. -/
def bits6 (v : Nat) : List Bool :=
  [v / 32 % 2 == 1, v / 16 % 2 == 1, v / 8 % 2 == 1,
   v / 4 % 2 == 1, v / 2 % 2 == 1, v % 2 == 1]

/-- Regroup a bit stream into bytes, dropping a trailing incomplete byte. -/
def bitsToBytes : List Bool → List Nat
  | b7 :: b6 :: b5 :: b4 :: b3 :: b2 :: b1 :: b0 :: rest =>
      (cond b7 128 0 + cond b6 64 0 + cond b5 32 0 + cond b4 16 0 +
       cond b3 8 0 + cond b2 4 0 + cond b1 2 0 + cond b0 1 0) :: bitsToBytes rest
  | _ => []

/-- decodeBase64ToBuffer from decode-base64-images.js: trim, strip all
whitespace, then decode base64 the way Node Buffer.from does (bytes
outside the alphabet are skipped). -/
def decodeBase64ToBuffer (content : List Nat) : List Nat :=
  bitsToBytes
    (List.flatten
      ((((trimBytes content).filter (fun b => !isSpaceByte b)).filterMap b64Val).map bits6))

/-- The eight PNG magic bytes checked by processFile. -/
def pngMagic : List Nat := [137, 80, 78, 71, 13, 10, 26, 10]

/-- Result of processFile on one file. -/
inductive ProcessOutcome
  | decoded (buf : List Nat)
  | notBase64
  | notPng
deriving DecidableEq, Repr

/-- processFile from decode-base64-images.js: skip files that do not carry
the base64 marker; decode the rest; reject a decode that does not start
with the PNG magic bytes; otherwise the decoded bytes are written back. -/
def processFile (content : List Nat) : ProcessOutcome :=
  if isBase64Encoded content then
    let buf := decodeBase64ToBuffer content
    if buf.take 8 == pngMagic then .decoded buf else .notPng
  else .notBase64

/-- The content of the file after processFile ran: the decoded buffer when
the file was rewritten, the original content otherwise. -/
def fixedContent (content : List Nat) : List Nat :=
  match processFile content with
  | .decoded buf => buf
  | _ => content

/-! ## Export pipeline data model (export-to-pdf.ts)

The configuration mirrors the ExportConfig interface. The JSON records
slidesWithSubSlides and specialSlides are keyed by the decimal string of
a slide index and are only ever looked up at the string of a Nat, so they
are modelled as functions from Nat. -/

/-- Variant tag of a sub-slide specification (field type of SlideConfig). -/
inductive SlideKind
  | subSlide
  | step
deriving DecidableEq, Repr

/-- SlideConfig from export-to-pdf.ts: variant tag and largest index. -/
structure SlideConfig where
  kind : SlideKind
  max : Nat
deriving DecidableEq, Repr

/-- Per-slide timing overrides (specialSlides entries). -/
structure SpecialSlideConfig where
  typewriterEffect : Bool
  typewriterWaitTime : Option Nat
deriving DecidableEq, Repr

/-- Viewport size from the configuration. -/
structure ViewportConfig where
  width : Nat
  height : Nat
deriving DecidableEq, Repr

/-- CSS selectors from the configuration. -/
structure SelectorConfig where
  progressBar : String
  mainContent : String
  header : String
  navigationBar : String
deriving DecidableEq, Repr

/-- ExportConfig from export-to-pdf.ts. -/
structure ExportConfig where
  devServerUrl : String
  totalSlides : Nat
  slidesWithSubSlides : Nat → Option SlideConfig
  pdfFormat : String
  landscape : Bool
  hideUIElements : Bool
  animationWaitTime : Nat
  slideTransitionWaitTime : Nat
  subSlideTransitionWaitTime : Nat
  viewport : ViewportConfig
  selectors : SelectorConfig
  specialSlides : Nat → Option SpecialSlideConfig

/-- Resolution of the optional delay argument of waitForAnimation. The
source computes waitTime as delay OR config.animationWaitTime with JS
falsiness, so an absent delay and a zero delay both fall back to the
configured animationWaitTime. -/
def resolveWait (config : ExportConfig) (delay : Option Nat) : Nat :=
  match delay with
  | none => config.animationWaitTime
  | some d => if d = 0 then config.animationWaitTime else d

/-! ## waitForAnimation (fine grained model, lines 107 to 128)

waitForAnimation performs an unconditional sleep and then one bounded
waitForFunction poll whose timeout is caught and discarded. -/

/-- One step performed by waitForAnimation. -/
inductive WaitStep
  | sleepMs (ms : Nat)
  | pollOpacity (selector : String) (timeoutMs : Nat)
deriving DecidableEq, Repr

/-- The steps of one waitForAnimation call: the unconditional sleep for
the resolved wait time, then the opacity poll bounded to 3000 ms. -/
def waitForAnimationSteps (config : ExportConfig) (delay : Option Nat) : List WaitStep :=
  [.sleepMs (resolveWait config delay),
   .pollOpacity config.selectors.mainContent 3000]

/-- The predicate polled by waitForAnimation, from the browser side
function: false when the main content element is absent, otherwise its
computed opacity must exceed 0.9. -/
def mainContentReady (opacity : Option ℚ) : Bool :=
  match opacity with
  | none => false
  | some op => decide ((9 : ℚ) / 10 < op)

/-- Outcome of waitForAnimation given the outcome of the bounded poll:
the try block swallows a poll timeout, so the call returns normally in
both cases. -/
def waitForAnimationOutcome (pollOutcome : Except String Unit) : Except String Unit :=
  match pollOutcome with
  | .ok _ => .ok ()
  | .error _ => .ok ()

/-! ## Orchestrator traces (navigation, capture, main loop)

At orchestrator granularity an event is a key press, a waitForAnimation
call (carrying its resolved base sleep), the hideUIElements evaluation,
the readiness waiting of waitForSlideContent, or a screenshot. -/

/-- One orchestrator event. -/
inductive Ev
  | press (key : String)
  | waitAnim (ms : Nat)
  | hideUI
  | contentWait (slide : Nat)
  | shot (slide : Nat) (label : Option Nat)
deriving DecidableEq, Repr

/-- A run of n identical key presses, each followed by its
waitForAnimation call, as emitted by the loops of navigateToSlide. -/
def pressLoop (key : String) (waitMs : Nat) : Nat → List Ev
  | 0 => []
  | n + 1 => .press key :: .waitAnim waitMs :: pressLoop key waitMs n

/-- navigateToSlide (lines 141 to 163): read the current slide from the
progress bar, compute steps = slideIndex - currentSlide, and emit that
many ArrowRight or ArrowLeft presses, each followed by a
waitForAnimation call with the configured slide transition wait; with
zero steps a single 500 ms waitForAnimation call is made. -/
def navigateToSlide (config : ExportConfig) (currentSlide slideIndex : Nat) : List Ev :=
  let steps : Int := (slideIndex : Int) - (currentSlide : Int)
  if 0 < steps then
    pressLoop "ArrowRight" (resolveWait config (some config.slideTransitionWaitTime)) steps.toNat
  else if steps < 0 then
    pressLoop "ArrowLeft" (resolveWait config (some config.slideTransitionWaitTime)) (-steps).toNat
  else
    [.waitAnim (resolveWait config (some 500))]

/-- navigateSubSlide (lines 172 to 176): one ArrowDown or ArrowUp press
followed by a waitForAnimation call with the sub-slide transition wait. -/
def navigateSubSlide (config : ExportConfig) (down : Bool) : List Ev :=
  [.press (if down then "ArrowDown" else "ArrowUp"),
   .waitAnim (resolveWait config (some config.subSlideTransitionWaitTime))]

/-- hideUIElements (lines 185 to 212): the page evaluation followed by a
300 ms waitForAnimation call. -/
def hideUITrace (config : ExportConfig) : List Ev :=
  [.hideUI, .waitAnim (resolveWait config (some 300))]

/-- takeScreenshot (lines 268 to 286): the readiness waiting of
waitForSlideContent (which emits no key events) followed by the
screenshot itself. -/
def takeScreenshotTrace (_config : ExportConfig) (slideIndex : Nat) (label : Option Nat) : List Ev :=
  [.contentWait slideIndex, .shot slideIndex label]

/-- The sub-state number used in the screenshot filename:
subIndex + (type === step ? 0 : 1) at line 497. -/
def subSlideLabel (kind : SlideKind) (subIndex : Nat) : Nat :=
  subIndex + (match kind with | .step => 0 | .subSlide => 1)

/-- First sub-state index of a variant: 0 for subSlide, 1 for step
(line 483). -/
def startIndexOf (kind : SlideKind) : Nat :=
  match kind with | .subSlide => 0 | .step => 1

/-- The inner sub-slide loop (lines 489 to 512): iterate subIndex from
startIndex to endIndex; every iteration after the first presses
ArrowDown first; each iteration hides the UI and takes one screenshot. -/
def subSlideIterTrace (config : ExportConfig) (slideIndex : Nat) (kind : SlideKind)
    (startIndex endIndex : Nat) : List Ev :=
  List.flatten ((List.range' startIndex (endIndex + 1 - startIndex)).map (fun subIndex =>
    (if startIndex < subIndex then navigateSubSlide config true else []) ++
    hideUITrace config ++
    takeScreenshotTrace config slideIndex (some (subSlideLabel kind subIndex))))

/-- The reset after a sub-slide loop (lines 514 to 522): for the subSlide
variant endIndex ArrowUp presses; for the step variant one wrap-forward
ArrowDown press. -/
def subSlideResetTrace (config : ExportConfig) (kind : SlideKind) (endIndex : Nat) : List Ev :=
  match kind with
  | .subSlide => List.flatten (List.replicate endIndex (navigateSubSlide config false))
  | .step => navigateSubSlide config true

/-- Body of one main-loop iteration after navigation (lines 478 to 539),
as a function of the sub-slide lookup result. -/
def slideBody (config : ExportConfig) (slideIndex : Nat) : Option SlideConfig → List Ev
  | some sc =>
      subSlideIterTrace config slideIndex sc.kind (startIndexOf sc.kind) sc.max ++
      subSlideResetTrace config sc.kind sc.max
  | none =>
      hideUITrace config ++ takeScreenshotTrace config slideIndex none

/-- One main-loop iteration: navigate to the slide, then branch on the
sub-slide lookup for this index. -/
def slideTrace (config : ExportConfig) (currentSlide slideIndex : Nat) : List Ev :=
  navigateToSlide config currentSlide slideIndex ++
  slideBody config slideIndex (config.slidesWithSubSlides slideIndex)

/-- The main loop over a list of slide indices, threading the page
position: after navigateToSlide to index i the presentation sits on
slide i, which the next progress-bar read returns. -/
def exportLoopTrace (config : ExportConfig) : Nat → List Nat → List Ev
  | _, [] => []
  | pos, i :: rest => slideTrace config pos i ++ exportLoopTrace config i rest

/-- The full export loop (lines 472 to 540): slide indices 0 to
totalSlides - 1 in order, starting from page position initialSlide. -/
def exportTrace (config : ExportConfig) (initialSlide : Nat) : List Ev :=
  exportLoopTrace config initialSlide (List.range config.totalSlides)

/-- Screenshot recogniser. -/
def isShot : Ev → Bool
  | .shot _ _ => true
  | _ => false

/-- Key press recogniser. -/
def isPress : Ev → Bool
  | .press _ => true
  | _ => false

/-- Number of screenshots in a trace. Each screenshot becomes exactly one
PDF page: convertImageToPDF adds a single page sized to the image and the
loop copies all pages of that document into the merged PDF, incrementing
totalPages once. -/
def countShots (tr : List Ev) : Nat := (tr.filter isShot).length

/-- Number of presses of a given key in a trace. -/
def countKey (key : String) (tr : List Ev) : Nat :=
  tr.count (Ev.press key)

/-- Number of pages the merged PDF receives over the whole run. -/
def totalPages (config : ExportConfig) (initialSlide : Nat) : Nat :=
  countShots (exportTrace config initialSlide)

/-- Slide index an event refers to, when it refers to one. -/
def evSlide : Ev → Option Nat
  | .shot i _ => some i
  | .contentWait i => some i
  | _ => none

/-! ## Configuration loader (loadConfig, lines 65 to 88)

The loader reads pdf-export.config.json, parses it, and checks the two
required fields with JS falsiness. The filesystem and parser are
modelled by the outcome the loader observes: no file, a file whose JSON
parse throws, or a parsed object. Parsed values carry the two checked
fields as options (absent or present) together with the sub-slide
mapping, which the validation never inspects. -/

/-- The parsed view of the configuration file that validation sees. -/
structure RawConfig where
  devServerUrl : Option String
  totalSlides : Option Nat
  slidesWithSubSlides : Nat → Option SlideConfig

/-- What reading and parsing the configuration file produced. -/
inductive ConfigFileState
  | malformed
  | parsed (raw : RawConfig)

/-- JS falsiness of an optional string field: absent or empty. -/
def jsFalsyString : Option String → Bool
  | none => true
  | some s => s == ""

/-- JS falsiness of an optional numeric field: absent or zero. -/
def jsFalsyNat : Option Nat → Bool
  | none => true
  | some n => n == 0

/-- The validation at lines 79 to 81: not devServerUrl or not
totalSlides under JS falsiness. -/
def requiredMissing (raw : RawConfig) : Bool :=
  jsFalsyString raw.devServerUrl || jsFalsyNat raw.totalSlides

/-- loadConfig: exit code 1 when the file is absent, when JSON.parse
throws, or when a required field is falsy; otherwise the parsed
configuration is returned unchanged. -/
def loadConfig : Option ConfigFileState → Except Nat RawConfig
  | none => .error 1
  | some .malformed => .error 1
  | some (.parsed raw) => if requiredMissing raw then .error 1 else .ok raw

/-! ## Dev server probe and startup (lines 326 to 337 and 388 to 434)

The single http.get probe is modelled by what the network returned: none
for a connection error, some (t, c) for a response with status c after t
milliseconds. The request carries a 2000 ms timeout after which it is
destroyed and the probe resolves false. -/

/-- checkDevServer: true exactly for a status 200 response arriving
within the 2000 ms timeout. -/
def checkDevServer (response : Option (Nat × Nat)) : Bool :=
  match response with
  | none => false
  | some (t, c) => if 2000 < t then false else c == 200

/-- One startup action of exportPresentationToPDF before the main loop. -/
inductive StartupStep
  | probe
  | mkdirs
  | launchBrowser
deriving DecidableEq, Repr

/-- The startup actions actually performed: after a failed probe the
process exits before the output directories are created and before
puppeteer.launch is called. -/
def startupSteps (response : Option (Nat × Nat)) : List StartupStep :=
  if checkDevServer response then [.probe, .mkdirs, .launchBrowser] else [.probe]

/-- Exit code produced by startup: some 1 when the probe failed
(process.exit 1 at line 403), none when startup continues. -/
def startupAbortCode (response : Option (Nat × Nat)) : Option Nat :=
  if checkDevServer response then none else some 1

/-! ## Image-fix main (decode-base64-images.js, lines 103 to 148) -/

/-- One file of an asset directory. -/
structure FileEntry where
  name : String
  content : List Nat

/-- findPngFiles: the files of the directory whose name ends in .png. -/
def findPngFiles (files : List FileEntry) : List FileEntry :=
  files.filter (fun f => f.name.endsWith ".png")

/-- The three counters of main. -/
structure FixSummary where
  totalProcessed : Nat
  totalSkipped : Nat
  totalErrors : Nat
deriving DecidableEq, Repr

/-- Pointwise sum of counters. -/
def addSummary (a b : FixSummary) : FixSummary :=
  ⟨a.totalProcessed + b.totalProcessed,
   a.totalSkipped + b.totalSkipped,
   a.totalErrors + b.totalErrors⟩

/-- How main counts one processFile result: processed files increment
totalProcessed, the reason Not base64-encoded increments totalSkipped,
every other failure increments totalErrors. -/
def classifyOutcome : ProcessOutcome → FixSummary
  | .decoded _ => ⟨1, 0, 0⟩
  | .notBase64 => ⟨0, 1, 0⟩
  | .notPng => ⟨0, 0, 1⟩

/-- Scan of one asset directory: a missing directory is logged and
skipped; otherwise every PNG file is processed and counted. -/
def scanDir : Option (List FileEntry) → FixSummary
  | none => ⟨0, 0, 0⟩
  | some files =>
      ((findPngFiles files).map (fun f => classifyOutcome (processFile f.content))).foldr
        addSummary ⟨0, 0, 0⟩

/-- The counters after scanning a list of asset directory states. -/
def mainSummary (dirs : List (Option (List FileEntry))) : FixSummary :=
  (dirs.map scanDir).foldr addSummary ⟨0, 0, 0⟩

/-- The exit code of main: both final branches call process.exit 0. -/
def mainExitCode (dirs : List (Option (List FileEntry))) : Nat :=
  if 0 < (mainSummary dirs).totalProcessed then 0 else 0

/-! ## Specification-side page count (claim C1)

specPageCount follows the wording of the spec: max - min + 1 pages over
the variant range for a slide with a sub-slide spec, one page otherwise. -/

/-- Pages the spec predicts for one slide. -/
def specPageCount : Option SlideConfig → Nat
  | none => 1
  | some sc =>
      match sc.kind with
      | .subSlide => sc.max + 1
      | .step => sc.max

/-! ## Concrete configurations used by witnesses and counterexamples -/

/-- A configuration matching the README example, with the documented
default waits. -/
def cfgStd : ExportConfig where
  devServerUrl := "http://localhost:3000"
  totalSlides := 22
  slidesWithSubSlides := fun j =>
    if j = 4 then some ⟨.subSlide, 8⟩
    else if j = 7 then some ⟨.step, 3⟩
    else none
  pdfFormat := "A4"
  landscape := true
  hideUIElements := true
  animationWaitTime := 2000
  slideTransitionWaitTime := 1000
  subSlideTransitionWaitTime := 1500
  viewport := ⟨1920, 1080⟩
  selectors := ⟨"#progress", "#main", "#header", "#nav"⟩
  specialSlides := fun _ => none

/-- The same configuration with a zero slide transition wait, the input
on which the JS falsy fallback of waitForAnimation shows. -/
def cfgZeroTransition : ExportConfig :=
  { cfgStd with animationWaitTime := 1000, slideTransitionWaitTime := 0 }

/-- A three-slide configuration for small concrete runs. -/
def cfgSmall : ExportConfig :=
  { cfgStd with
      totalSlides := 3,
      slidesWithSubSlides := fun j => if j = 1 then some ⟨.subSlide, 2⟩ else none }

/-! ## Counting helper lemmas -/

lemma countShots_append (a b : List Ev) :
    countShots (a ++ b) = countShots a + countShots b := by
  simp [countShots, List.filter_append]

lemma countKey_append (key : String) (a b : List Ev) :
    countKey key (a ++ b) = countKey key a + countKey key b := by
  simp [countKey, List.count_append]

lemma countShots_pressLoop (key : String) (w : Nat) :
    ∀ n, countShots (pressLoop key w n) = 0 := by
  intro n
  induction n with
  | zero => rfl
  | succ m ih => simp [pressLoop, countShots, List.filter, isShot] at ih ⊢; exact ih

lemma countShots_nav (config : ExportConfig) (a b : Nat) :
    countShots (navigateToSlide config a b) = 0 := by
  unfold navigateToSlide
  dsimp only
  split
  · exact countShots_pressLoop _ _ _
  · split
    · exact countShots_pressLoop _ _ _
    · rfl

lemma countShots_navigateSubSlide (config : ExportConfig) (d : Bool) :
    countShots (navigateSubSlide config d) = 0 := by
  simp [navigateSubSlide, countShots, List.filter, isShot]

lemma countShots_hideUI (config : ExportConfig) :
    countShots (hideUITrace config) = 0 := rfl

lemma countShots_screenshot (config : ExportConfig) (i : Nat) (label : Option Nat) :
    countShots (takeScreenshotTrace config i label) = 1 := rfl

lemma countShots_flatten_map_one {β : Type} (f : β → List Ev) :
    ∀ l : List β, (∀ x ∈ l, countShots (f x) = 1) →
      countShots (List.flatten (l.map f)) = l.length := by
  intro l
  induction l with
  | nil => intro _; rfl
  | cons x xs ih =>
    intro h
    simp only [List.map_cons, List.flatten_cons]
    rw [countShots_append, h x (by simp), ih (fun y hy => h y (by simp [hy])),
      List.length_cons]
    omega

lemma countShots_iter (config : ExportConfig) (i : Nat) (kind : SlideKind)
    (s e : Nat) : countShots (subSlideIterTrace config i kind s e) = e + 1 - s := by
  unfold subSlideIterTrace
  rw [countShots_flatten_map_one]
  · exact List.length_range' ..
  · intro x _
    rw [countShots_append, countShots_append, countShots_hideUI, countShots_screenshot]
    split
    · rw [countShots_navigateSubSlide]
    · rfl

lemma countShots_reset (config : ExportConfig) (kind : SlideKind) (e : Nat) :
    countShots (subSlideResetTrace config kind e) = 0 := by
  cases kind with
  | subSlide =>
    unfold subSlideResetTrace
    induction e with
    | zero => rfl
    | succ m ih =>
      simp only [List.replicate_succ, List.flatten_cons]
      rw [countShots_append, countShots_navigateSubSlide, ih]
  | step => exact countShots_navigateSubSlide config true

lemma countShots_slideBody (config : ExportConfig) (i : Nat)
    (sub : Option SlideConfig) :
    countShots (slideBody config i sub) = specPageCount sub := by
  cases sub with
  | none => rfl
  | some sc =>
    obtain ⟨k, m⟩ := sc
    unfold slideBody
    rw [countShots_append, countShots_iter, countShots_reset]
    cases k <;> simp [startIndexOf, specPageCount]

lemma countShots_slideTrace (config : ExportConfig) (pos i : Nat) :
    countShots (slideTrace config pos i) =
      specPageCount (config.slidesWithSubSlides i) := by
  unfold slideTrace
  rw [countShots_append, countShots_nav, countShots_slideBody]
  omega

lemma countShots_exportLoop (config : ExportConfig) :
    ∀ (l : List Nat) (pos : Nat),
      countShots (exportLoopTrace config pos l) =
        ((l.map (fun i => specPageCount (config.slidesWithSubSlides i))).sum) := by
  intro l
  induction l with
  | nil => intro _; rfl
  | cons i rest ih =>
    intro pos
    simp only [exportLoopTrace, List.map_cons, List.sum_cons]
    rw [countShots_append, countShots_slideTrace, ih]

/-- Claim C1: for every configuration, the number of pages in the merged
PDF equals the sum over slide indices 0 to totalSlides - 1 of max + 1
pages for a subSlide spec with bound max, max pages for a step spec with
bound max, and 1 page for a slide with no spec. -/
theorem c1_pdf_page_count (config : ExportConfig) (initialSlide : Nat) :
    totalPages config initialSlide =
      ((List.range config.totalSlides).map
        (fun i => specPageCount (config.slidesWithSubSlides i))).sum := by
  unfold totalPages exportTrace
  exact countShots_exportLoop config (List.range config.totalSlides) initialSlide

/-! ## Navigation lemmas (claim C2) -/

lemma pressLoop_eq_flatten (key : String) (w : Nat) :
    ∀ n, pressLoop key w n = List.flatten (List.replicate n [.press key, .waitAnim w]) := by
  intro n
  induction n with
  | zero => rfl
  | succ m ih => simp [pressLoop, List.replicate_succ, ih]

lemma countKey_pressLoop_same (k : String) (w : Nat) :
    ∀ n, countKey k (pressLoop k w n) = n := by
  intro n
  induction n with
  | zero => rfl
  | succ m ih =>
    simp only [pressLoop, countKey, List.count_cons] at ih ⊢
    simp [ih]

lemma countKey_pressLoop_other (key k : String) (w : Nat) (h : key ≠ k) :
    ∀ n, countKey key (pressLoop k w n) = 0 := by
  intro n
  induction n with
  | zero => rfl
  | succ m ih =>
    simp only [pressLoop, countKey, List.count_cons] at ih ⊢
    simp [ih, Ne.symm h]

lemma pressCount_pressLoop (k : String) (w : Nat) :
    ∀ n, ((pressLoop k w n).filter isPress).length = n := by
  intro n
  induction n with
  | zero => rfl
  | succ m ih =>
    simp only [pressLoop, List.filter, isPress, List.length_cons] at ih ⊢
    omega

/-- Normal form of navigateToSlide over Nat positions: the Int step
computation of the source reduces to a three-way comparison. -/
lemma navigateToSlide_eq (config : ExportConfig) (a b : Nat) :
    navigateToSlide config a b =
      if a < b then
        pressLoop "ArrowRight" (resolveWait config (some config.slideTransitionWaitTime)) (b - a)
      else if b < a then
        pressLoop "ArrowLeft" (resolveWait config (some config.slideTransitionWaitTime)) (a - b)
      else [.waitAnim (resolveWait config (some 500))] := by
  unfold navigateToSlide
  dsimp only
  by_cases h1 : a < b
  · rw [if_pos (by omega : (0 : Int) < (b : Int) - (a : Int)), if_pos h1]
    congr 1
    omega
  · by_cases h2 : b < a
    · rw [if_neg (by omega : ¬ (0 : Int) < (b : Int) - (a : Int)),
        if_pos (by omega : ((b : Int) - (a : Int)) < 0), if_neg h1, if_pos h2]
      congr 1
      omega
    · rw [if_neg (by omega : ¬ (0 : Int) < (b : Int) - (a : Int)),
        if_neg (by omega : ¬ ((b : Int) - (a : Int)) < 0), if_neg h1, if_neg h2]

/-- Claim C2, counterexample to the claim as stated: with a configured
inter-slide transition wait of 0, navigating from slide 2 to slide 5
does emit exactly 3 ArrowRight presses, but each is followed by a wait
of animationWaitTime = 1000 ms, not of the configured inter-slide
duration 0 (JS falsiness makes waitForAnimation fall back). -/
theorem c2_counterexample :
    cfgZeroTransition.slideTransitionWaitTime = 0 ∧
    navigateToSlide cfgZeroTransition 2 5 =
      [.press "ArrowRight", .waitAnim 1000, .press "ArrowRight", .waitAnim 1000,
       .press "ArrowRight", .waitAnim 1000] ∧
    Ev.waitAnim cfgZeroTransition.slideTransitionWaitTime ∉
      navigateToSlide cfgZeroTransition 2 5 := by
  refine ⟨rfl, by decide, by decide⟩

/-- Claim C2, amended: navigateToSlide emits exactly the absolute slide
difference in key presses, ArrowRight presses when moving forward and
ArrowLeft presses when moving backward, one at a time, each followed by
exactly one wait call; the wait duration is the configured inter-slide
transition wait when that value is nonzero, and falls back to the base
animationWaitTime when it is zero (JS falsiness in waitForAnimation). -/
theorem c2_navigation_steps (config : ExportConfig) (a b : Nat) :
    countKey "ArrowRight" (navigateToSlide config a b) = b - a ∧
    countKey "ArrowLeft" (navigateToSlide config a b) = a - b ∧
    ((navigateToSlide config a b).filter isPress).length = ((b : Int) - (a : Int)).natAbs ∧
    (a ≠ b →
      navigateToSlide config a b =
        List.flatten (List.replicate (max (b - a) (a - b))
          [.press (if a < b then "ArrowRight" else "ArrowLeft"),
           .waitAnim (resolveWait config (some config.slideTransitionWaitTime))])) := by
  rw [navigateToSlide_eq]
  by_cases h1 : a < b
  · simp only [if_pos h1]
    refine ⟨countKey_pressLoop_same _ _ _, ?_, ?_, ?_⟩
    · rw [countKey_pressLoop_other "ArrowLeft" "ArrowRight" _ (by decide)]
      omega
    · rw [pressCount_pressLoop]
      omega
    · intro _
      have hmax : max (b - a) (a - b) = b - a := by omega
      rw [pressLoop_eq_flatten, hmax]
  · by_cases h2 : b < a
    · simp only [if_neg h1, if_pos h2]
      refine ⟨?_, countKey_pressLoop_same _ _ _, ?_, ?_⟩
      · rw [countKey_pressLoop_other "ArrowRight" "ArrowLeft" _ (by decide)]
        omega
      · rw [pressCount_pressLoop]
        omega
      · intro _
        have hmax : max (b - a) (a - b) = a - b := by omega
        rw [pressLoop_eq_flatten, hmax]
    · have hab : a = b := by omega
      subst hab
      simp only [if_neg h1, if_neg h2]
      refine ⟨?_, ?_, ?_, fun h => absurd rfl h⟩
      · simp [countKey]
      · simp [countKey]
      · simp [isPress]

/-- Witness for c2_navigation_steps at a concrete backward move. -/
theorem c2_navigation_steps_witness :
    (5 : Nat) ≠ 2 ∧
    navigateToSlide cfgStd 5 2 =
      List.flatten (List.replicate (max (2 - 5) (5 - 2))
        [.press (if 5 < 2 then "ArrowRight" else "ArrowLeft"),
         .waitAnim (resolveWait cfgStd (some cfgStd.slideTransitionWaitTime))]) :=
  ⟨by decide, (c2_navigation_steps cfgStd 5 2).2.2.2 (by decide)⟩

/-! ## waitForAnimation theorems (claim C3) -/

/-- Claim C3, counterexample to the claim as stated: an invocation whose
target wait duration is 0 does not first sleep for 0 ms; the JS falsy
resolution makes it sleep for animationWaitTime = 2000 ms instead. -/
theorem c3_counterexample :
    cfgStd.animationWaitTime = 2000 ∧
    waitForAnimationSteps cfgStd (some 0) =
      [.sleepMs 2000, .pollOpacity "#main" 3000] ∧
    WaitStep.sleepMs 0 ∉ waitForAnimationSteps cfgStd (some 0) := by
  refine ⟨rfl, by decide, by decide⟩

/-- Claim C3, amended: waitForAnimation first sleeps unconditionally for
the resolved wait time (the passed delay when nonzero, else the
configured animationWaitTime), then performs exactly one poll of the
configured main content selector bounded to 3000 ms whose success
criterion is computed opacity above 0.9, and returns normally whether or
not the poll times out (the timeout is swallowed). -/
theorem c3_wait_for_animation (config : ExportConfig) (delay : Option Nat)
    (pollOutcome : Except String Unit) :
    waitForAnimationSteps config delay =
      [.sleepMs (resolveWait config delay),
       .pollOpacity config.selectors.mainContent 3000] ∧
    (∀ d : Nat, d ≠ 0 → resolveWait config (some d) = d) ∧
    resolveWait config (some 0) = config.animationWaitTime ∧
    resolveWait config none = config.animationWaitTime ∧
    waitForAnimationOutcome pollOutcome = .ok () ∧
    mainContentReady none = false ∧
    (∀ op : ℚ, (9 : ℚ) / 10 < op → mainContentReady (some op) = true) ∧
    (∀ op : ℚ, op ≤ (9 : ℚ) / 10 → mainContentReady (some op) = false) := by
  refine ⟨rfl, ?_, rfl, rfl, ?_, rfl, ?_, ?_⟩
  · intro d hd
    simp [resolveWait, hd]
  · cases pollOutcome <;> rfl
  · intro op hop
    simp [mainContentReady, hop]
  · intro op hop
    simp only [mainContentReady]
    exact decide_eq_false (not_lt.mpr hop)

/-- Witness for c3_wait_for_animation at concrete inputs. -/
theorem c3_wait_for_animation_witness :
    resolveWait cfgStd (some 1500) = 1500 ∧
    mainContentReady (some 1) = true ∧
    mainContentReady (some (1 / 2)) = false :=
  ⟨(c3_wait_for_animation cfgStd (some 1500) (.ok ())).2.1 1500 (by decide),
   (c3_wait_for_animation cfgStd (some 1500) (.ok ())).2.2.2.2.2.2.1 1 (by norm_num),
   (c3_wait_for_animation cfgStd (some 1500) (.ok ())).2.2.2.2.2.2.2 (1 / 2) (by norm_num)⟩

/-! ## Dev server probe theorems (claim C4) -/

/-- Claim C4: whenever the probe observes a connection error, a timeout
(response later than the 2000 ms bound), or any non-200 status, the
probe resolves false, startup aborts with exit code 1, and no browser
launch occurs; the boolean result does not distinguish a down server
from an error response. -/
theorem c4_probe_failure_aborts (response : Option (Nat × Nat))
    (h : response = none ∨ ∃ t c, response = some (t, c) ∧ (2000 < t ∨ c ≠ 200)) :
    checkDevServer response = false ∧
    startupAbortCode response = some 1 ∧
    StartupStep.launchBrowser ∉ startupSteps response ∧
    checkDevServer none = checkDevServer (some (10, 500)) := by
  have hfalse : checkDevServer response = false := by
    rcases h with h | ⟨t, c, rfl, h⟩
    · rw [h]; rfl
    · unfold checkDevServer
      rcases h with h | h
      · simp [h]
      · by_cases ht : 2000 < t
        · simp [ht]
        · simp [ht, h]
  refine ⟨hfalse, ?_, ?_, by decide⟩
  · simp [startupAbortCode, hfalse]
  · simp [startupSteps, hfalse]

/-- Witness for c4_probe_failure_aborts: a fast 503 response. -/
theorem c4_probe_failure_aborts_witness :
    checkDevServer (some (10, 503)) = false ∧
    startupAbortCode (some (10, 503)) = some 1 ∧
    StartupStep.launchBrowser ∉ startupSteps (some (10, 503)) := by
  have h := c4_probe_failure_aborts (some (10, 503))
    (Or.inr ⟨10, 503, rfl, Or.inr (by decide)⟩)
  exact ⟨h.1, h.2.1, h.2.2.1⟩

/-! ## Image-fix theorems (claim C5) -/

lemma dropWhile_append_single (b : Nat) (hb : isSpaceByte b = false) :
    ∀ xs : List Nat, List.dropWhile isSpaceByte (xs ++ [b]) =
      if (List.dropWhile isSpaceByte xs).isEmpty then [b]
      else List.dropWhile isSpaceByte xs ++ [b] := by
  intro xs
  induction xs with
  | nil => simp [List.dropWhile, hb]
  | cons x xs ih =>
    by_cases hx : isSpaceByte x
    · simpa [List.dropWhile_cons, hx] using ih
    · simp [List.dropWhile_cons, hx]

lemma trimBytes_head (b : Nat) (hb : isSpaceByte b = false) (l : List Nat) :
    (trimBytes (b :: l)).head? = some b := by
  unfold trimBytes
  rw [List.dropWhile_cons, if_neg (by simp [hb])]
  rw [List.reverse_cons, dropWhile_append_single b hb]
  split
  · rfl
  · rw [List.reverse_append]
    rfl

lemma head?_take_pos (l : List Nat) (n : Nat) (hn : 0 < n) :
    (l.take n).head? = l.head? := by
  cases l with
  | nil => simp
  | cons x xs =>
    cases n with
    | zero => omega
    | succ m => simp

lemma isBase64Encoded_false_of_headPng (c : List Nat)
    (h : (trimBytes c).head? = some 137) : isBase64Encoded c = false := by
  unfold isBase64Encoded
  rw [beq_eq_false_iff_ne]
  intro heq
  have h105 : (trimBytes c).head? = b64MagicHead.head? := by
    rw [← head?_take_pos (trimBytes c) 11 (by norm_num), heq]
  rw [h] at h105
  exact absurd h105 (by decide)

lemma fixedContent_of_png_head (c : List Nat) (h : c.take 8 = pngMagic) :
    fixedContent c = c := by
  have hhead : c.head? = some 137 := by
    have h8 := congrArg List.head? h
    rwa [head?_take_pos c 8 (by norm_num)] at h8
  obtain ⟨tail, rfl⟩ : ∃ t, c = 137 :: t := by
    cases c with
    | nil => simp at hhead
    | cons x xs =>
      simp only [List.head?_cons, Option.some.injEq] at hhead
      exact ⟨xs, by rw [hhead]⟩
  have hb64 : isBase64Encoded (137 :: tail) = false :=
    isBase64Encoded_false_of_headPng _ (trimBytes_head 137 (by decide) tail)
  simp [fixedContent, processFile, hb64]

/-- Claim C5: a file whose content decodes to bytes that do not begin
with the PNG signature is left unchanged by the image fixer; a file that
is already binary PNG (its bytes begin with the PNG signature) is left
unchanged; and running the fixer twice gives the same content as running
it once, for every file. -/
theorem c5_image_fix (content : List Nat) :
    ((decodeBase64ToBuffer content).take 8 ≠ pngMagic → fixedContent content = content) ∧
    (content.take 8 = pngMagic → fixedContent content = content) ∧
    fixedContent (fixedContent content) = fixedContent content := by
  refine ⟨?_, fun h => fixedContent_of_png_head content h, ?_⟩
  · intro hno
    by_cases hb : isBase64Encoded content
    · simp [fixedContent, processFile, hb, hno]
    · simp [fixedContent, processFile, hb]
  · rcases hp : processFile content with buf | _ | _
    · have hmagic : buf.take 8 = pngMagic := by
        unfold processFile at hp
        by_cases hb : isBase64Encoded content
        · by_cases hm : (decodeBase64ToBuffer content).take 8 == pngMagic
          · simp only [hb, if_true, hm, if_true, ProcessOutcome.decoded.injEq] at hp
            rw [← hp]
            exact beq_iff_eq.mp hm
          · simp [hb, hm] at hp
        · simp [hb] at hp
      have hfix : fixedContent content = buf := by simp [fixedContent, hp]
      rw [hfix]
      exact fixedContent_of_png_head buf hmagic
    · have hfix : fixedContent content = content := by simp [fixedContent, hp]
      rw [hfix]
      exact hfix
    · have hfix : fixedContent content = content := by simp [fixedContent, hp]
      rw [hfix]
      exact hfix

/-- Witness for c5_image_fix at the PNG magic bytes themselves: a binary
PNG file is not base64 encoded (and its content, decoded as base64 the
lenient way, does not start with the signature), so the fixer leaves it
unchanged, once and twice. -/
theorem c5_image_fix_witness :
    (decodeBase64ToBuffer pngMagic).take 8 ≠ pngMagic ∧
    pngMagic.take 8 = pngMagic ∧
    fixedContent pngMagic = pngMagic ∧
    fixedContent (fixedContent pngMagic) = fixedContent pngMagic :=
  ⟨by decide, by decide, (c5_image_fix pngMagic).2.1 (by decide),
   (c5_image_fix pngMagic).2.2⟩

/-! ## Sub-slide reset theorems (claim C6) -/

lemma countKey_navigateSubSlide_down (config : ExportConfig) :
    countKey "ArrowDown" (navigateSubSlide config true) = 1 := by
  simp [navigateSubSlide, countKey, List.count_cons]

lemma countKey_up_navigateSubSlide_down (config : ExportConfig) :
    countKey "ArrowUp" (navigateSubSlide config true) = 0 := by
  have h : (Ev.press "ArrowDown" == Ev.press "ArrowUp") = false := by decide
  simp [navigateSubSlide, countKey, List.count_cons, h]

lemma countKey_up_navigateSubSlide_up (config : ExportConfig) :
    countKey "ArrowUp" (navigateSubSlide config false) = 1 := by
  simp [navigateSubSlide, countKey, List.count_cons]

lemma countKey_hideUITrace (key : String) (config : ExportConfig) :
    countKey key (hideUITrace config) = 0 := by
  simp [hideUITrace, countKey, List.count_cons]

lemma countKey_screenshotTrace (key : String) (config : ExportConfig) (i : Nat)
    (label : Option Nat) :
    countKey key (takeScreenshotTrace config i label) = 0 := by
  simp [takeScreenshotTrace, countKey, List.count_cons]

lemma countKey_flatten_replicate (key : String) (tr : List Ev) (c : Nat)
    (h : countKey key tr = c) :
    ∀ n, countKey key (List.flatten (List.replicate n tr)) = n * c := by
  intro n
  induction n with
  | zero => simp [countKey]
  | succ m ih =>
    rw [List.replicate_succ, List.flatten_cons, countKey_append, h, ih]
    ring

lemma countKey_flatten_map_one {β : Type} (key : String) (f : β → List Ev) :
    ∀ l : List β, (∀ x ∈ l, countKey key (f x) = 1) →
      countKey key (List.flatten (l.map f)) = l.length := by
  intro l
  induction l with
  | nil => intro _; rfl
  | cons x xs ih =>
    intro h
    simp only [List.map_cons, List.flatten_cons]
    rw [countKey_append, h x (by simp), ih (fun y hy => h y (by simp [hy])),
      List.length_cons]
    omega

lemma countKey_flatten_map_zero {β : Type} (key : String) (f : β → List Ev) :
    ∀ l : List β, (∀ x ∈ l, countKey key (f x) = 0) →
      countKey key (List.flatten (l.map f)) = 0 := by
  intro l
  induction l with
  | nil => intro _; rfl
  | cons x xs ih =>
    intro h
    simp only [List.map_cons, List.flatten_cons]
    rw [countKey_append, h x (by simp), ih (fun y hy => h y (by simp [hy]))]

lemma countKey_down_iter (config : ExportConfig) (slideIndex maxI : Nat) :
    countKey "ArrowDown" (subSlideIterTrace config slideIndex .subSlide 0 maxI) = maxI := by
  unfold subSlideIterTrace
  rw [show maxI + 1 - 0 = maxI + 1 from rfl, List.range'_succ]
  rw [List.map_cons, List.flatten_cons, countKey_append]
  rw [if_neg (by omega : ¬ (0 : Nat) < 0)]
  rw [show ([] : List Ev) ++ hideUITrace config ++
    takeScreenshotTrace config slideIndex (some (subSlideLabel .subSlide 0)) =
    hideUITrace config ++
    takeScreenshotTrace config slideIndex (some (subSlideLabel .subSlide 0)) from by simp]
  rw [countKey_append, countKey_hideUITrace, countKey_screenshotTrace]
  rw [countKey_flatten_map_one "ArrowDown" _ (List.range' 1 maxI) ?_]
  · simp
  · intro x hx
    have hx1 : 1 ≤ x := (List.mem_range'_1.mp hx).1
    rw [if_pos (by omega : 0 < x)]
    rw [countKey_append, countKey_append, countKey_navigateSubSlide_down,
      countKey_hideUITrace, countKey_screenshotTrace]

/-- Claim C6: after exporting all sub-states of a slide with a sub-slide
spec and before advancing, the navigator emits for the subSlide variant
exactly max ArrowUp events, one per ArrowDown forward step taken during
the export of range 0 to max, and for the step variant exactly one
wrap-forward ArrowDown event (followed by its wait). -/
theorem c6_subslide_reset (config : ExportConfig) (slideIndex maxI : Nat) :
    countKey "ArrowUp" (subSlideResetTrace config .subSlide maxI) = maxI ∧
    countKey "ArrowDown" (subSlideIterTrace config slideIndex .subSlide 0 maxI) = maxI ∧
    countKey "ArrowUp" (subSlideResetTrace config .subSlide maxI) =
      countKey "ArrowDown" (subSlideIterTrace config slideIndex .subSlide 0 maxI) ∧
    subSlideResetTrace config .step maxI =
      [.press "ArrowDown", .waitAnim (resolveWait config (some config.subSlideTransitionWaitTime))] ∧
    countKey "ArrowUp" (subSlideIterTrace config slideIndex .step 1 maxI) = 0 := by
  have hup : countKey "ArrowUp" (subSlideResetTrace config .subSlide maxI) = maxI := by
    show countKey "ArrowUp"
      (List.flatten (List.replicate maxI (navigateSubSlide config false))) = maxI
    rw [countKey_flatten_replicate "ArrowUp" _ 1 (countKey_up_navigateSubSlide_up config)]
    ring
  have hdown := countKey_down_iter config slideIndex maxI
  refine ⟨hup, hdown, by rw [hup, hdown], rfl, ?_⟩
  unfold subSlideIterTrace
  rw [countKey_flatten_map_zero "ArrowUp" _ (List.range' 1 (maxI + 1 - 1)) ?_]
  intro x _
  rw [countKey_append, countKey_append, countKey_hideUITrace, countKey_screenshotTrace]
  split
  · rw [countKey_up_navigateSubSlide_down]
  · rfl

/-! ## Configuration loader theorems (claims C7 and C9) -/

/-- Claim C7: the loader exits with code 1 when the configuration file is
absent, when its JSON is malformed, or when a required field (target URL
or total slide count) is missing after parsing; the outcome never
depends on the sub-slide mapping (no range validation); and on success
the parsed configuration is returned unchanged. -/
theorem c7_load_config (raw : RawConfig) (m : Nat → Option SlideConfig) :
    loadConfig none = .error 1 ∧
    loadConfig (some .malformed) = .error 1 ∧
    ((raw.devServerUrl = none ∨ raw.totalSlides = none) →
      loadConfig (some (.parsed raw)) = .error 1) ∧
    (requiredMissing raw = false → loadConfig (some (.parsed raw)) = .ok raw) ∧
    (loadConfig (some (.parsed { raw with slidesWithSubSlides := m })) = .error 1 ↔
      loadConfig (some (.parsed raw)) = .error 1) := by
  refine ⟨rfl, rfl, ?_, ?_, ?_⟩
  · intro h
    have hmiss : requiredMissing raw = true := by
      rcases h with h | h <;> simp [requiredMissing, jsFalsyString, jsFalsyNat, h]
    simp [loadConfig, hmiss]
  · intro h
    simp [loadConfig, h]
  · have hsame : requiredMissing { raw with slidesWithSubSlides := m } =
      requiredMissing raw := rfl
    by_cases h : requiredMissing raw
    · simp [loadConfig, hsame, h]
    · simp [loadConfig, hsame, h]

/-- A parsed configuration missing the target URL. -/
def rawMissingUrl : RawConfig where
  devServerUrl := none
  totalSlides := some 22
  slidesWithSubSlides := fun _ => none

/-- A parsed configuration carrying both required fields. -/
def rawComplete : RawConfig where
  devServerUrl := some "http://localhost:3000"
  totalSlides := some 22
  slidesWithSubSlides := fun _ => none

/-- Witness for c7_load_config at concrete parsed configurations. -/
theorem c7_load_config_witness :
    loadConfig (some (.parsed rawMissingUrl)) = .error 1 ∧
    loadConfig (some (.parsed rawComplete)) = .ok rawComplete :=
  ⟨(c7_load_config rawMissingUrl (fun _ => none)).2.2.1 (Or.inl rfl),
   (c7_load_config rawComplete (fun _ => none)).2.2.2.1 (by decide)⟩

/-- Claim C9: a required field that is present but falsy is treated as
missing: a totalSlides of 0 or an empty devServerUrl makes the loader
exit with code 1 even though the field is present in the JSON. -/
theorem c9_falsy_required (raw : RawConfig)
    (h : raw.devServerUrl = some "" ∨ raw.totalSlides = some 0) :
    loadConfig (some (.parsed raw)) = .error 1 := by
  have hmiss : requiredMissing raw = true := by
    rcases h with h | h <;> simp [requiredMissing, jsFalsyString, jsFalsyNat, h]
  simp [loadConfig, hmiss]

/-- A parsed configuration whose totalSlides is present but zero. -/
def rawZeroSlides : RawConfig where
  devServerUrl := some "http://localhost:3000"
  totalSlides := some 0
  slidesWithSubSlides := fun _ => none

/-- Witness for c9_falsy_required. -/
theorem c9_falsy_required_witness :
    loadConfig (some (.parsed rawZeroSlides)) = .error 1 :=
  c9_falsy_required rawZeroSlides (Or.inr rfl)

/-! ## Out-of-range sub-slide entries (claim C8) -/

/-- The configuration with one extra sub-slide entry keyed by slide
index k. -/
def setSubSlide (config : ExportConfig) (k : Nat) (sc : SlideConfig) : ExportConfig :=
  { config with
      slidesWithSubSlides := fun j =>
        if j = k then some sc else config.slidesWithSubSlides j }

lemma slideTrace_setSubSlide (config : ExportConfig) (k : Nat) (sc : SlideConfig)
    (pos i : Nat) (h : i ≠ k) :
    slideTrace (setSubSlide config k sc) pos i = slideTrace config pos i := by
  unfold slideTrace
  have hm : (setSubSlide config k sc).slidesWithSubSlides i =
      config.slidesWithSubSlides i := by
    simp [setSubSlide, h]
  rw [hm]
  rfl

lemma exportLoop_setSubSlide (config : ExportConfig) (k : Nat) (sc : SlideConfig) :
    ∀ (l : List Nat), (∀ i ∈ l, i ≠ k) → ∀ pos,
      exportLoopTrace (setSubSlide config k sc) pos l = exportLoopTrace config pos l := by
  intro l
  induction l with
  | nil => intro _ _; rfl
  | cons i rest ih =>
    intro h pos
    simp only [exportLoopTrace]
    rw [slideTrace_setSubSlide config k sc pos i (h i (by simp)),
      ih (fun j hj => h j (by simp [hj])) i]

lemma evSlide_mem_pressLoop (key : String) (w : Nat) (e : Ev) :
    ∀ n, e ∈ pressLoop key w n → evSlide e = none := by
  intro n
  induction n with
  | zero => intro h; simp [pressLoop] at h
  | succ m ih =>
    intro h
    simp only [pressLoop, List.mem_cons] at h
    rcases h with rfl | rfl | h
    · rfl
    · rfl
    · exact ih h

lemma evSlide_mem_nav (config : ExportConfig) (a b : Nat) (e : Ev)
    (h : e ∈ navigateToSlide config a b) : evSlide e = none := by
  rw [navigateToSlide_eq] at h
  split at h
  · exact evSlide_mem_pressLoop _ _ e _ h
  · split at h
    · exact evSlide_mem_pressLoop _ _ e _ h
    · simp only [List.mem_singleton] at h
      subst h
      rfl

lemma evSlide_mem_navSub (config : ExportConfig) (d : Bool) (e : Ev)
    (h : e ∈ navigateSubSlide config d) : evSlide e = none := by
  simp only [navigateSubSlide, List.mem_cons, List.mem_singleton] at h
  rcases h with rfl | rfl | h
  · rfl
  · rfl
  · simp at h

lemma evSlide_mem_hide (config : ExportConfig) (e : Ev)
    (h : e ∈ hideUITrace config) : evSlide e = none := by
  simp only [hideUITrace, List.mem_cons, List.mem_singleton] at h
  rcases h with rfl | rfl | h
  · rfl
  · rfl
  · simp at h

lemma evSlide_mem_shotTrace (config : ExportConfig) (i : Nat) (label : Option Nat)
    (e : Ev) (h : e ∈ takeScreenshotTrace config i label) :
    evSlide e = none ∨ evSlide e = some i := by
  simp only [takeScreenshotTrace, List.mem_cons, List.mem_singleton] at h
  rcases h with rfl | rfl | h
  · exact Or.inr rfl
  · exact Or.inr rfl
  · simp at h

lemma evSlide_mem_slideBody (config : ExportConfig) (i : Nat)
    (sub : Option SlideConfig) (e : Ev) (h : e ∈ slideBody config i sub) :
    evSlide e = none ∨ evSlide e = some i := by
  cases sub with
  | none =>
    simp only [slideBody, List.mem_append] at h
    rcases h with h | h
    · exact Or.inl (evSlide_mem_hide config e h)
    · exact evSlide_mem_shotTrace config i none e h
  | some sc =>
    simp only [slideBody, List.mem_append] at h
    rcases h with h | h
    · unfold subSlideIterTrace at h
      rw [List.mem_flatten] at h
      obtain ⟨tr, htr, he⟩ := h
      rw [List.mem_map] at htr
      obtain ⟨x, _, rfl⟩ := htr
      simp only [List.mem_append] at he
      rcases he with (he | he) | he
      · split at he
        · exact Or.inl (evSlide_mem_navSub config true e he)
        · simp at he
      · exact Or.inl (evSlide_mem_hide config e he)
      · exact evSlide_mem_shotTrace config i _ e he
    · cases hk : sc.kind with
      | subSlide =>
        rw [hk] at h
        unfold subSlideResetTrace at h
        rw [List.mem_flatten] at h
        obtain ⟨tr, htr, he⟩ := h
        rw [List.eq_of_mem_replicate htr] at he
        exact Or.inl (evSlide_mem_navSub config false e he)
      | step =>
        rw [hk] at h
        exact Or.inl (evSlide_mem_navSub config true e h)

lemma evSlide_mem_slideTrace (config : ExportConfig) (pos i : Nat) (e : Ev)
    (h : e ∈ slideTrace config pos i) :
    evSlide e = none ∨ evSlide e = some i := by
  simp only [slideTrace, List.mem_append] at h
  rcases h with h | h
  · exact Or.inl (evSlide_mem_nav config pos i e h)
  · exact evSlide_mem_slideBody config i _ e h

lemma evSlide_mem_exportLoop (config : ExportConfig) (e : Ev) :
    ∀ (l : List Nat) (pos : Nat), e ∈ exportLoopTrace config pos l →
      evSlide e = none ∨ ∃ i ∈ l, evSlide e = some i := by
  intro l
  induction l with
  | nil => intro pos h; simp [exportLoopTrace] at h
  | cons i rest ih =>
    intro pos h
    simp only [exportLoopTrace, List.mem_append] at h
    rcases h with h | h
    · rcases evSlide_mem_slideTrace config pos i e h with h | h
      · exact Or.inl h
      · exact Or.inr ⟨i, by simp, h⟩
    · rcases ih i h with h | ⟨j, hj, hje⟩
      · exact Or.inl h
      · exact Or.inr ⟨j, by simp [hj], hje⟩

/-- Claim C8: a sub-slide entry keyed by a slide index at or beyond
totalSlides is silently inert: adding it changes nothing about the
export run, and every event of the run that refers to a slide index
refers to one below totalSlides (the loop visits exactly the indices
0 to totalSlides - 1). -/
theorem c8_out_of_range_inert (config : ExportConfig) (k : Nat) (sc : SlideConfig)
    (initialSlide : Nat) (h : config.totalSlides ≤ k) :
    exportTrace (setSubSlide config k sc) initialSlide =
      exportTrace config initialSlide ∧
    (∀ e ∈ exportTrace config initialSlide, ∀ i, evSlide e = some i →
      i < config.totalSlides) := by
  constructor
  · show exportLoopTrace (setSubSlide config k sc) initialSlide
      (List.range (setSubSlide config k sc).totalSlides) = _
    have ht : (setSubSlide config k sc).totalSlides = config.totalSlides := rfl
    rw [ht]
    exact exportLoop_setSubSlide config k sc (List.range config.totalSlides)
      (fun i hi => by
        have := List.mem_range.mp hi
        omega) initialSlide
  · intro e he i hei
    rcases evSlide_mem_exportLoop config e (List.range config.totalSlides)
      initialSlide he with hnone | ⟨j, hj, hje⟩
    · rw [hnone] at hei; exact absurd hei (by simp)
    · rw [hje] at hei
      have : j = i := by injection hei
      subst this
      exact List.mem_range.mp hj

/-- Witness for c8_out_of_range_inert: a three-slide configuration with
an extra entry at index 5 produces an identical export trace. -/
theorem c8_out_of_range_inert_witness :
    cfgSmall.totalSlides ≤ 5 ∧
    exportTrace (setSubSlide cfgSmall 5 ⟨SlideKind.step, 2⟩) 0 =
      exportTrace cfgSmall 0 :=
  ⟨by decide,
   (c8_out_of_range_inert cfgSmall 5 ⟨SlideKind.step, 2⟩ 0 (by decide)).1⟩

/-! ## Image-fix main theorems (claim C10) -/

lemma addSummary_zero (x : FixSummary) : addSummary ⟨0, 0, 0⟩ x = x := by
  cases x
  simp [addSummary]

lemma addSummary_totalErrors (a b : FixSummary) :
    (addSummary a b).totalErrors = a.totalErrors + b.totalErrors := rfl

lemma scan_errors_count (fs : List FileEntry) :
    ((fs.map (fun f => classifyOutcome (processFile f.content))).foldr
        addSummary ⟨0, 0, 0⟩).totalErrors =
      (fs.filter (fun f => processFile f.content == ProcessOutcome.notPng)).length := by
  induction fs with
  | nil => rfl
  | cons f fs ih =>
    rw [List.map_cons, List.foldr_cons, List.filter_cons, addSummary_totalErrors, ih]
    rcases ho : processFile f.content with buf | _ | _ <;>
      simp [classifyOutcome, Nat.add_comm]

/-- Claim C10: whatever the state of the asset directories, the image-fix
script exits with code 0 once its scan completes; a missing directory is
skipped and contributes nothing to the counters; and files whose decode
is rejected are merely counted in totalErrors. -/
theorem c10_exit_zero (dirs : List (Option (List FileEntry)))
    (d : Option (List FileEntry)) (files : List FileEntry) :
    mainExitCode dirs = 0 ∧
    mainSummary (none :: dirs) = mainSummary dirs ∧
    mainExitCode (d :: dirs) = 0 ∧
    (scanDir (some files)).totalErrors =
      ((findPngFiles files).filter
        (fun f => processFile f.content == ProcessOutcome.notPng)).length := by
  refine ⟨?_, ?_, ?_, ?_⟩
  · unfold mainExitCode
    split <;> rfl
  · simp only [mainSummary, List.map_cons, List.foldr_cons, scanDir]
    exact addSummary_zero _
  · unfold mainExitCode
    split <;> rfl
  · exact scan_errors_count (findPngFiles files)

end DesignDevToolbox
